import Mathlib

/-!
# Verification of the CodeReview comparison/explanation pipeline

Shallow embedding of the backend services of the CodeReview web
application (analysis ingestion, analysis controller, AI explanation
service) and of the frontend comparison request logic, together with
proofs of the specified properties.

Sources embedded:
* `src/backend/src/services/aiExplanationService.ts`
* `src/backend/src/controllers/analysisController.ts` (`analyzeVersion`)
* the analysis service (`analyzeCode`, `callGeminiForAnalysis`)
* `src/frontend/src/pages/History.tsx` (`handleCompare`)

The external generative model call and `JSON.parse` are modelled as
injected functions (`generate`, `parseJSON`); the `try/catch` around them
becomes a `match` on `Except` values. Database tables reached through the
ORM become lists of records carried in explicit state structures; the
ORM's `findUnique` on a unique column becomes `List.find?`.
-/

namespace CodeReview

/-! ## Enumerations (closed domains of the data model) -/

inductive Severity where
  | low
  | medium
  | high
deriving DecidableEq, Repr

inductive Complexity where
  | O_1
  | O_n
  | O_n2
deriving DecidableEq, Repr

inductive ChangeType where
  | IMPROVED
  | UNCHANGED
  | WORSENED
deriving DecidableEq, Repr

inductive IssueCode where
  | NESTED_LOOP
  | UNUSED_VARIABLE
  | MAGIC_NUMBER
  | LONG_FUNCTION
  | DUPLICATE_CODE
deriving DecidableEq, Repr

def severityText : Severity → String
  | Severity.low => "low"
  | Severity.medium => "medium"
  | Severity.high => "high"

/-- JavaScript template-literal rendering of a nullable severity field:
`null` prints as the string `"null"`. -/
def showSeverity : Option Severity → String
  | none => "null"
  | some s => severityText s

def issueCodeText : IssueCode → String
  | IssueCode.NESTED_LOOP => "NESTED_LOOP"
  | IssueCode.UNUSED_VARIABLE => "UNUSED_VARIABLE"
  | IssueCode.MAGIC_NUMBER => "MAGIC_NUMBER"
  | IssueCode.LONG_FUNCTION => "LONG_FUNCTION"
  | IssueCode.DUPLICATE_CODE => "DUPLICATE_CODE"

/-! ## Comparison result records (Prisma `ComparisonResult`) -/

structure ComparisonResult where
  issueCode : IssueCode
  changeType : ChangeType
  beforeSeverity : Option Severity
  afterSeverity : Option Severity
  beforeComplexity : Option Complexity
  afterComplexity : Option Complexity
deriving DecidableEq, Repr

/-! ## Explanation synthesis (`callAIForExplanation`)

The source builds the explanation string imperatively: a header, then for
each non-empty group a section header followed by one line per entry
appended in a `for` loop, the improved and worsened sections each followed
by a blank line. The three mutable-append loops become `List.foldl`. -/

/-- Line emitted inside the improved-results loop of
`callAIForExplanation`: resolved when `afterSeverity` is null (falsy),
otherwise the reduced-severity sentence. -/
def improvedLine (result : ComparisonResult) : String :=
  "- **" ++ issueCodeText result.issueCode ++ "**: " ++
    (if result.afterSeverity.isNone then
      "Issue has been completely resolved.\n"
    else
      "Severity reduced from " ++ showSeverity result.beforeSeverity ++
        " to " ++ showSeverity result.afterSeverity ++ ".\n")

/-- Line emitted inside the worsened-results loop of
`callAIForExplanation`. -/
def worsenedLine (result : ComparisonResult) : String :=
  "- **" ++ issueCodeText result.issueCode ++ "**: " ++
    (if result.beforeSeverity.isNone then
      "New issue introduced.\n"
    else
      "Severity increased from " ++ showSeverity result.beforeSeverity ++
        " to " ++ showSeverity result.afterSeverity ++ ".\n")

/-- Line emitted inside the unchanged-results loop of
`callAIForExplanation`. -/
def unchangedLine (result : ComparisonResult) : String :=
  "- **" ++ issueCodeText result.issueCode ++ "**: No change detected.\n"

/-- The mock explanation synthesizer of `aiExplanationService.ts`
(`callAIForExplanation`): filters the results into the three verdict
groups and renders a grouped markdown report. -/
def callAIForExplanation (results : List ComparisonResult) : String :=
  let improved := results.filter (fun r => r.changeType == ChangeType.IMPROVED)
  let worsened := results.filter (fun r => r.changeType == ChangeType.WORSENED)
  let unchanged := results.filter (fun r => r.changeType == ChangeType.UNCHANGED)
  let explanation := "## Code Review Comparison Summary\n\n"
  let explanation :=
    if improved.length > 0 then
      (improved.foldl (fun acc r => acc ++ improvedLine r)
        (explanation ++ "### ✅ Improvements (" ++ toString improved.length ++ ")\n")) ++ "\n"
    else explanation
  let explanation :=
    if worsened.length > 0 then
      (worsened.foldl (fun acc r => acc ++ worsenedLine r)
        (explanation ++ "### ⚠️ Regressions (" ++ toString worsened.length ++ ")\n")) ++ "\n"
    else explanation
  let explanation :=
    if unchanged.length > 0 then
      unchanged.foldl (fun acc r => acc ++ unchangedLine r)
        (explanation ++ "### ➖ Unchanged (" ++ toString unchanged.length ++ ")\n")
    else explanation
  explanation

/-! ## Explanation service state (`aiExplanationService.generateExplanation`) -/

structure ComparisonRec where
  id : String
  results : List ComparisonResult
deriving DecidableEq, Repr

structure AIExplanationRec where
  comparisonId : String
  explanation : String
deriving DecidableEq, Repr

/-- The slice of the database the explanation service touches: the
`Comparison` table (with its included results) and the `AIExplanation`
table, which has a unique index on `comparisonId`. -/
structure ExplState where
  comparisons : List ComparisonRec
  explanations : List AIExplanationRec
deriving DecidableEq, Repr

/-- `prisma.comparison.findUnique` on the primary key `id`. -/
def findComparison (st : ExplState) (comparisonId : String) : Option ComparisonRec :=
  st.comparisons.find? (fun c => c.id == comparisonId)

/-- `prisma.aIExplanation.findUnique` on the unique column `comparisonId`. -/
def findExplanation (st : ExplState) (comparisonId : String) : Option AIExplanationRec :=
  st.explanations.find? (fun e => e.comparisonId == comparisonId)

/-- `aiExplanationService.generateExplanation`: load the comparison (throw
`"Comparison not found"` when absent), return a cached explanation when
one exists, otherwise synthesize, store and return a new record. The
thrown error is the `Except.error` branch; the returned state is the
database after the call. -/
def generateExplanation (st : ExplState) (comparisonId : String) :
    Except String AIExplanationRec × ExplState :=
  match findComparison st comparisonId with
  | none => (Except.error "Comparison not found", st)
  | some comparison =>
    match findExplanation st comparisonId with
    | some existingExplanation => (Except.ok existingExplanation, st)
    | none =>
      let explanation := callAIForExplanation comparison.results
      let aiExplanation : AIExplanationRec :=
        { comparisonId := comparisonId, explanation := explanation }
      (Except.ok aiExplanation,
        { st with explanations := st.explanations ++ [aiExplanation] })

/-! ## Analysis ingestion (`analysisService.analyzeCode`, `callGeminiForAnalysis`)

The generative producer's response reaches the service through
`JSON.parse(cleanedText) as AIAnalysisResponse` — a compile-time cast with
no runtime check, so at runtime the enum-annotated fields hold arbitrary
strings. The embedding therefore types those fields as `String`. -/

structure AIIssue where
  issueCode : String
  severity : String
  complexity : String
  functionName : Option String
  startLine : Option Int
  endLine : Option Int
  beforeSnippet : Option String
  afterSnippet : Option String
deriving DecidableEq, Repr

structure AIAnalysisResponse where
  summary : String
  issues : List AIIssue
deriving DecidableEq, Repr

/-- JavaScript truthiness of a nullable string: `null`/`undefined` and the
empty string are falsy. -/
def jsTruthyStr : Option String → Bool
  | none => false
  | some s => s ≠ ""

structure SnippetRec where
  beforeSnippet : Option String
  afterSnippet : Option String
deriving DecidableEq, Repr

/-- One row of the `Issue` table as created by `analyzeCode`'s nested
`issues.create`, with its optional nested `snippet` row. -/
structure StoredIssue where
  issueCode : String
  severity : String
  complexity : String
  functionName : Option String
  startLine : Option Int
  endLine : Option Int
  snippet : Option SnippetRec
deriving DecidableEq, Repr

/-- One row of the `AnalysisResult` table (unique on `codeVersionId`),
with its included issues. -/
structure AnalysisResultRec where
  codeVersionId : String
  summary : String
  issues : List StoredIssue
deriving DecidableEq, Repr

/-- The per-issue data mapped into the nested create of `analyzeCode`:
every field of the producer issue is copied through; a snippet row is
created exactly when `issue.beforeSnippet || issue.afterSnippet` is
truthy. -/
def storeIssue (issue : AIIssue) : StoredIssue :=
  { issueCode := issue.issueCode
    severity := issue.severity
    complexity := issue.complexity
    functionName := issue.functionName
    startLine := issue.startLine
    endLine := issue.endLine
    snippet :=
      if jsTruthyStr issue.beforeSnippet || jsTruthyStr issue.afterSnippet then
        some { beforeSnippet := issue.beforeSnippet, afterSnippet := issue.afterSnippet }
      else none }

/-- The fixed prompt `callGeminiForAnalysis` sends to the model, a
template around the submitted source code (braces of the JSON example
written with escapes). -/
def analysisPrompt (sourceCode : String) : String :=
  "You are a code analyzer. Analyze the following code and return a JSON object with this EXACT structure:\n\n\x7b\n  \"summary\": \"Brief summary of the analysis (max 2 sentences)\",\n  \"issues\": [\n    \x7b\n      \"issueCode\": \"NESTED_LOOP\" | \"UNUSED_VARIABLE\" | \"MAGIC_NUMBER\" | \"LONG_FUNCTION\" | \"DUPLICATE_CODE\",\n      \"severity\": \"low\" | \"medium\" | \"high\",\n      \"complexity\": \"O_1\" | \"O_n\" | \"O_n2\",\n      \"functionName\": \"optional function name where issue is found\",\n      \"startLine\": optional line number (integer),\n      \"endLine\": optional line number (integer),\n      \"beforeSnippet\": \"optional code snippet showing the issue (max 5 lines)\",\n      \"afterSnippet\": \"optional suggested fix snippet (max 5 lines)\"\n    \x7d\n  ]\n\x7d\n\nRULES:\n- issueCode MUST be one of: NESTED_LOOP, UNUSED_VARIABLE, MAGIC_NUMBER, LONG_FUNCTION, DUPLICATE_CODE\n- severity MUST be one of: low, medium, high\n- complexity MUST be one of: O_1, O_n, O_n2\n- Return ONLY valid JSON, no markdown, no explanation\n- If no issues found, return empty issues array\n\nCODE TO ANALYZE:\n```\n" ++ sourceCode ++ "\n```"

/-- The markdown-fence stripping applied to the model's response text
before `JSON.parse`. -/
def cleanResponseText (text : String) : String :=
  let cleanedText := text.trim
  let cleanedText :=
    if cleanedText.startsWith "```json" then cleanedText.drop 7 else cleanedText
  let cleanedText :=
    if cleanedText.startsWith "```" then cleanedText.drop 3 else cleanedText
  let cleanedText :=
    if cleanedText.endsWith "```" then cleanedText.dropRight 3 else cleanedText
  cleanedText.trim

/-- The fallback response returned from the `catch` branch of
`callGeminiForAnalysis`. -/
def fallbackAnalysisResponse : AIAnalysisResponse :=
  { summary := "Analysis failed - unable to parse code at this time.", issues := [] }

/-- `callGeminiForAnalysis`: send the prompt to the model, strip markdown
fences, parse the JSON; any failure inside the `try` block (model call or
parse) is caught and replaced by the fallback response. The model call and
`JSON.parse` are the injected functions `generate` and `parseJSON`. -/
def callGeminiForAnalysis (sourceCode : String)
    (generate : String → Except String String)
    (parseJSON : String → Except String AIAnalysisResponse) : AIAnalysisResponse :=
  match generate (analysisPrompt sourceCode) with
  | Except.error _ => fallbackAnalysisResponse
  | Except.ok text =>
    match parseJSON (cleanResponseText text) with
    | Except.error _ => fallbackAnalysisResponse
    | Except.ok parsed => parsed

/-- The slice of the database the analysis service touches: the
`AnalysisResult` table, unique on `codeVersionId`. -/
structure AnalysisDB where
  analyses : List AnalysisResultRec
deriving DecidableEq, Repr

/-- `analysisService.getByCodeVersionId`: `findUnique` on
`codeVersionId`. -/
def getByCodeVersionId (db : AnalysisDB) (codeVersionId : String) :
    Option AnalysisResultRec :=
  db.analyses.find? (fun a => a.codeVersionId == codeVersionId)

/-- `analysisService.analyzeCode`: call the producer on the source code,
then create one `AnalysisResult` row holding the summary and the mapped
issues. Returns the created record and the database after the create. -/
def analyzeCode (db : AnalysisDB) (codeVersionId : String) (sourceCode : String)
    (generate : String → Except String String)
    (parseJSON : String → Except String AIAnalysisResponse) :
    AnalysisResultRec × AnalysisDB :=
  let aiResponse := callGeminiForAnalysis sourceCode generate parseJSON
  let analysisResult : AnalysisResultRec :=
    { codeVersionId := codeVersionId
      summary := aiResponse.summary
      issues := aiResponse.issues.map storeIssue }
  (analysisResult, { db with analyses := db.analyses ++ [analysisResult] })

/-! ## Analysis controller (`analyzeVersion` in `analysisController.ts`) -/

/-- The JSON body and status code `analyzeVersion` sends back. -/
structure ApiOutcome where
  status : Nat
  success : Bool
  error : Option String
  data : Option AnalysisResultRec
deriving DecidableEq, Repr

/-- `POST /versions/:versionId/analyze`: ownership check, then reject if
an analysis already exists, then require a truthy `sourceCode`, then run
the analysis. `ownedVersionIds` stands for the versions
`codeVersionService.verifyOwnership` accepts for the requesting user. -/
def analyzeVersion (db : AnalysisDB) (ownedVersionIds : List String)
    (versionId : String) (sourceCode : Option String)
    (generate : String → Except String String)
    (parseJSON : String → Except String AIAnalysisResponse) :
    ApiOutcome × AnalysisDB :=
  if ¬ ownedVersionIds.contains versionId then
    ({ status := 404, success := false, error := some "Version not found", data := none }, db)
  else
    match getByCodeVersionId db versionId with
    | some existingAnalysis =>
      ({ status := 400, success := false,
         error := some "Analysis already exists for this version",
         data := some existingAnalysis }, db)
    | none =>
      if ¬ jsTruthyStr sourceCode then
        ({ status := 400, success := false,
           error := some "Source code is required for analysis", data := none }, db)
      else
        let analysis := analyzeCode db versionId (sourceCode.getD "") generate parseJSON
        ({ status := 201, success := true, error := none, data := some analysis.1 },
          analysis.2)

/-! ## Frontend comparison request (`handleCompare` in `History.tsx`) -/

structure VersionItem where
  id : String
  versionLabel : String
  uploadedAt : Nat
deriving DecidableEq, Repr

/-- `handleCompare`: requires exactly two selected version ids, looks both
up in the loaded version list, orders them older-first by `uploadedAt`
(`getTime()` modelled as the `uploadedAt` number) and returns the
`(fromVersionId, toVersionId)` pair supplied to `comparisons.create`. -/
def handleCompare (versionList : List VersionItem)
    (selectedForCompare : List String) : Option (String × String) :=
  match selectedForCompare with
  | [s1, s2] =>
    match versionList.find? (fun v => v.id == s1),
          versionList.find? (fun v => v.id == s2) with
    | some v1, some v2 =>
      let date1 := v1.uploadedAt
      let date2 := v2.uploadedAt
      some (if date1 < date2 then v1.id else v2.id,
            if date1 < date2 then v2.id else v1.id)
    | _, _ => none
  | _ => none

/-! ## Change classifier (spec §4.3) -/

/-- Modelled from the spec: the Change Classifier and the
Severity/Complexity Ranker live in the comparison service, which is not
among the provided source files; §4.1 fixes `rank` over
low < medium < high. -/
def severityRank : Severity → Nat
  | Severity.low => 0
  | Severity.medium => 1
  | Severity.high => 2

/-- Modelled from the spec: §4.1's rank over O_1 < O_n < O_n2. -/
def complexityRank : Complexity → Nat
  | Complexity.O_1 => 0
  | Complexity.O_n => 1
  | Complexity.O_n2 => 2

/-- The severity and complexity of one side of a matched pair, the data
the classifier consults. -/
structure IssueSnapshot where
  severity : Severity
  complexity : Complexity
deriving DecidableEq, Repr

/-- Modelled from the spec: the Change Classifier of §4.3 (not among the
provided source files). Before-only → IMPROVED; after-only → WORSENED;
both present → compare severity ranks, falling back to complexity ranks
only on equal severity. The both-absent case cannot arise (a matched pair
has at least one side populated); it is mapped to UNCHANGED. -/
def classifyPair : Option IssueSnapshot → Option IssueSnapshot → ChangeType
  | some _, none => ChangeType.IMPROVED
  | none, some _ => ChangeType.WORSENED
  | none, none => ChangeType.UNCHANGED
  | some beforeIssue, some afterIssue =>
    if severityRank afterIssue.severity < severityRank beforeIssue.severity then
      ChangeType.IMPROVED
    else if severityRank beforeIssue.severity < severityRank afterIssue.severity then
      ChangeType.WORSENED
    else if complexityRank afterIssue.complexity < complexityRank beforeIssue.complexity then
      ChangeType.IMPROVED
    else if complexityRank beforeIssue.complexity < complexityRank afterIssue.complexity then
      ChangeType.WORSENED
    else ChangeType.UNCHANGED

/-! ## Statement-side rendering of the grouped explanation -/

/-- Concatenation of one emitted line per entry, in list order. -/
def joinedLines (line : ComparisonResult → String) : List ComparisonResult → String
  | [] => ""
  | r :: rs => line r ++ joinedLines line rs

/-- One verdict group of the explanation report: empty groups render
nothing; a non-empty group renders its header with the group size, one
line per entry in group order, and a trailing separator. -/
def sectionBlock (header : String) (line : ComparisonResult → String)
    (group : List ComparisonResult) (trailing : String) : String :=
  if group.length > 0 then
    header ++ toString group.length ++ ")\n" ++ joinedLines line group ++ trailing
  else ""

/-! ## Helper lemmas -/

theorem foldl_append_lines (line : ComparisonResult → String)
    (l : List ComparisonResult) (init : String) :
    l.foldl (fun acc r => acc ++ line r) init = init ++ joinedLines line l := by
  induction l generalizing init with
  | nil => simp [joinedLines]
  | cons r rs ih => simp [joinedLines, ih, String.append_assoc]

theorem find?_append_singleton {α : Type} (p : α → Bool) (l : List α) (x : α)
    (h : l.find? p = none) :
    (l ++ [x]).find? p = if p x then some x else none := by
  rw [List.find?_append, h]
  cases hx : p x <;> simp [List.find?, hx]

theorem merge_reduced_prefix (s : String) :
    "**: " ++ ("Severity reduced from " ++ s) = "**: Severity reduced from " ++ s := by
  rw [← String.append_assoc]
  rfl

theorem merge_increased_prefix (s : String) :
    "**: " ++ ("Severity increased from " ++ s) = "**: Severity increased from " ++ s := by
  rw [← String.append_assoc]
  rfl

/-! ## Claim theorems -/

/-- C9: if `generateExplanation` is called with a `comparisonId` for which
no Comparison exists, it throws "Comparison not found" before any
generation or storage step, and the database state is unchanged (no
Explanation record is created). -/
theorem generateExplanation_missing_comparison (st : ExplState) (comparisonId : String)
    (h : findComparison st comparisonId = none) :
    generateExplanation st comparisonId =
      (Except.error "Comparison not found", st) := by
  unfold generateExplanation
  rw [h]

theorem generateExplanation_missing_comparison_witness :
    generateExplanation ⟨[], []⟩ "c9" = (Except.error "Comparison not found", ⟨[], []⟩) :=
  generateExplanation_missing_comparison ⟨[], []⟩ "c9" rfl

/-- C1: explanation generation is idempotent per Comparison. If a call to
`generateExplanation` returned Explanation `e` leaving database `st'`,
then a second call with the same `comparisonId` returns the very same
stored record `e` (hence byte-identical content) and leaves the database
exactly `st'` — no second Explanation record is created or stored. -/
theorem generateExplanation_idempotent (st : ExplState) (comparisonId : String)
    (e : AIExplanationRec) (st' : ExplState)
    (h : generateExplanation st comparisonId = (Except.ok e, st')) :
    generateExplanation st' comparisonId = (Except.ok e, st') := by
  unfold generateExplanation at h ⊢
  cases hc : findComparison st comparisonId with
  | none => rw [hc] at h; simp at h
  | some comparison =>
    rw [hc] at h
    cases he : findExplanation st comparisonId with
    | some existing =>
      rw [he] at h
      obtain ⟨he1, he2⟩ := Prod.mk.injEq .. ▸ h
      obtain rfl : existing = e := by
        cases he1
        rfl
      cases he2
      rw [hc, he]
    | none =>
      rw [he] at h
      simp only [Prod.mk.injEq, Except.ok.injEq] at h
      obtain ⟨h1, h2⟩ := h
      subst h1
      subst h2
      have hcomp : findComparison
          { st with explanations :=
              st.explanations ++
                [{ comparisonId := comparisonId,
                   explanation := callAIForExplanation comparison.results }] }
          comparisonId = some comparison := hc
      rw [hcomp]
      have hexp : findExplanation
          { st with explanations :=
              st.explanations ++
                [{ comparisonId := comparisonId,
                   explanation := callAIForExplanation comparison.results }] }
          comparisonId =
          some { comparisonId := comparisonId,
                 explanation := callAIForExplanation comparison.results } := by
        unfold findExplanation at he ⊢
        rw [find?_append_singleton _ _ _ he]
        simp
      rw [hexp]

theorem generateExplanation_idempotent_witness :
    generateExplanation
        ⟨[⟨"c1", []⟩], [⟨"c1", "## Code Review Comparison Summary\n\n"⟩]⟩ "c1" =
      (Except.ok ⟨"c1", "## Code Review Comparison Summary\n\n"⟩,
        ⟨[⟨"c1", []⟩], [⟨"c1", "## Code Review Comparison Summary\n\n"⟩]⟩) :=
  generateExplanation_idempotent ⟨[⟨"c1", []⟩], []⟩ "c1"
    ⟨"c1", "## Code Review Comparison Summary\n\n"⟩
    ⟨[⟨"c1", []⟩], [⟨"c1", "## Code Review Comparison Summary\n\n"⟩]⟩ (by rfl)

/-- C2: for matched pairs with both issues present and differing
severities, the classifier's verdict follows the severity direction alone
(lower after-severity rank → IMPROVED, higher → WORSENED), whatever the
complexities are — complexity is consulted only when the severity ranks
are equal. (Classifier modelled from the spec, §4.3.) -/
theorem classifyPair_severity_dominates (beforeIssue afterIssue : IssueSnapshot)
    (h : beforeIssue.severity ≠ afterIssue.severity) :
    classifyPair (some beforeIssue) (some afterIssue) =
      (if severityRank afterIssue.severity < severityRank beforeIssue.severity
        then ChangeType.IMPROVED else ChangeType.WORSENED) := by
  obtain ⟨bs, bc⟩ := beforeIssue
  obtain ⟨afs, afc⟩ := afterIssue
  cases bs <;> cases afs <;> simp_all [classifyPair, severityRank]

theorem classifyPair_severity_dominates_witness :
    classifyPair (some ⟨Severity.high, Complexity.O_1⟩) (some ⟨Severity.low, Complexity.O_n2⟩) =
      (if severityRank Severity.low < severityRank Severity.high
        then ChangeType.IMPROVED else ChangeType.WORSENED) :=
  classifyPair_severity_dominates ⟨Severity.high, Complexity.O_1⟩
    ⟨Severity.low, Complexity.O_n2⟩ (by decide)

/-- C3: the generated explanation text lists all IMPROVED entries first,
then all WORSENED entries, then all UNCHANGED entries, each group in the
original result-list order (the groups are order-preserving sublists of
the result list). -/
theorem callAIForExplanation_grouped (results : List ComparisonResult) :
    (results.filter (fun r => r.changeType == ChangeType.IMPROVED)).Sublist results ∧
    (results.filter (fun r => r.changeType == ChangeType.WORSENED)).Sublist results ∧
    (results.filter (fun r => r.changeType == ChangeType.UNCHANGED)).Sublist results ∧
    callAIForExplanation results =
      "## Code Review Comparison Summary\n\n" ++
        sectionBlock "### ✅ Improvements (" improvedLine
          (results.filter (fun r => r.changeType == ChangeType.IMPROVED)) "\n" ++
        sectionBlock "### ⚠️ Regressions (" worsenedLine
          (results.filter (fun r => r.changeType == ChangeType.WORSENED)) "\n" ++
        sectionBlock "### ➖ Unchanged (" unchangedLine
          (results.filter (fun r => r.changeType == ChangeType.UNCHANGED)) "" := by
  refine ⟨List.filter_sublist results, List.filter_sublist results,
    List.filter_sublist results, ?_⟩
  unfold callAIForExplanation sectionBlock
  set imp := results.filter (fun r => r.changeType == ChangeType.IMPROVED) with himp
  set wor := results.filter (fun r => r.changeType == ChangeType.WORSENED) with hwor
  set unc := results.filter (fun r => r.changeType == ChangeType.UNCHANGED) with hunc
  by_cases h1 : imp.length > 0 <;> by_cases h2 : wor.length > 0 <;>
    by_cases h3 : unc.length > 0 <;>
      simp [h1, h2, h3, foldl_append_lines, ← String.append_assoc,
        String.append_empty, String.empty_append]

/-- C4: the fact line emitted for each result entry is the deterministic
sentence the claim lists: improved entries state resolution (afterSeverity
absent) or the severity reduction; worsened entries state a new issue
(beforeSeverity absent) or the severity increase; unchanged entries state
that no change was detected. -/
theorem explanation_fact_lines (r : ComparisonResult) :
    (r.afterSeverity = none →
      improvedLine r =
        "- **" ++ issueCodeText r.issueCode ++ "**: Issue has been completely resolved.\n") ∧
    (∀ a, r.afterSeverity = some a →
      improvedLine r =
        "- **" ++ issueCodeText r.issueCode ++ "**: Severity reduced from " ++
          showSeverity r.beforeSeverity ++ " to " ++ severityText a ++ ".\n") ∧
    (r.beforeSeverity = none →
      worsenedLine r =
        "- **" ++ issueCodeText r.issueCode ++ "**: New issue introduced.\n") ∧
    (∀ b, r.beforeSeverity = some b →
      worsenedLine r =
        "- **" ++ issueCodeText r.issueCode ++ "**: Severity increased from " ++
          severityText b ++ " to " ++ showSeverity r.afterSeverity ++ ".\n") ∧
    unchangedLine r =
      "- **" ++ issueCodeText r.issueCode ++ "**: No change detected.\n" := by
  refine ⟨?_, ?_, ?_, ?_, ?_⟩
  · intro h
    simp [improvedLine, h, String.append_assoc]
  · intro a h
    simp [improvedLine, h, showSeverity, merge_reduced_prefix, String.append_assoc]
  · intro h
    simp [worsenedLine, h, String.append_assoc]
  · intro b h
    simp [worsenedLine, h, showSeverity, merge_increased_prefix, String.append_assoc]
  · simp [unchangedLine, String.append_assoc]

theorem explanation_fact_lines_witness :
    improvedLine ⟨IssueCode.NESTED_LOOP, ChangeType.IMPROVED, some Severity.high,
        none, none, none⟩ =
      "- **NESTED_LOOP**: Issue has been completely resolved.\n" ∧
    improvedLine ⟨IssueCode.LONG_FUNCTION, ChangeType.IMPROVED, some Severity.high,
        some Severity.low, none, none⟩ =
      "- **LONG_FUNCTION**: Severity reduced from high to low.\n" ∧
    worsenedLine ⟨IssueCode.MAGIC_NUMBER, ChangeType.WORSENED, none,
        some Severity.low, none, none⟩ =
      "- **MAGIC_NUMBER**: New issue introduced.\n" ∧
    worsenedLine ⟨IssueCode.DUPLICATE_CODE, ChangeType.WORSENED, some Severity.low,
        some Severity.high, none, none⟩ =
      "- **DUPLICATE_CODE**: Severity increased from low to high.\n" ∧
    unchangedLine ⟨IssueCode.UNUSED_VARIABLE, ChangeType.UNCHANGED, some Severity.medium,
        some Severity.medium, none, none⟩ =
      "- **UNUSED_VARIABLE**: No change detected.\n" :=
  ⟨(explanation_fact_lines ⟨IssueCode.NESTED_LOOP, ChangeType.IMPROVED, some Severity.high,
      none, none, none⟩).1 rfl,
    (explanation_fact_lines ⟨IssueCode.LONG_FUNCTION, ChangeType.IMPROVED, some Severity.high,
      some Severity.low, none, none⟩).2.1 Severity.low rfl,
    (explanation_fact_lines ⟨IssueCode.MAGIC_NUMBER, ChangeType.WORSENED, none,
      some Severity.low, none, none⟩).2.2.1 rfl,
    (explanation_fact_lines ⟨IssueCode.DUPLICATE_CODE, ChangeType.WORSENED, some Severity.low,
      some Severity.high, none, none⟩).2.2.2.1 Severity.low rfl,
    (explanation_fact_lines ⟨IssueCode.UNUSED_VARIABLE, ChangeType.UNCHANGED, some Severity.medium,
      some Severity.medium, none, none⟩).2.2.2.2⟩

/-- A producer issue carrying a severity value outside the closed enum
domain {"low","medium","high"}. -/
def outOfDomainIssue : AIIssue :=
  { issueCode := "NESTED_LOOP"
    severity := "ULTRA"
    complexity := "O_n2"
    functionName := none
    startLine := none
    endLine := none
    beforeSnippet := none
    afterSnippet := none }

/-- A syntactically valid producer response containing the out-of-domain
issue. -/
def outOfDomainResponse : AIAnalysisResponse :=
  { summary := "Analysis completed.", issues := [outOfDomainIssue] }

/-- C5 counterexample: the ingestion path performs no enum validation.
When the producer's parsed response carries an issue whose severity
"ULTRA" is outside the closed domain, `analyzeCode` stores that issue in
the snapshot instead of excluding it. -/
theorem analyzeCode_stores_out_of_domain_enum :
    ((analyzeCode ⟨[]⟩ "v1" "some code"
        (fun _ => Except.ok "raw model text")
        (fun _ => Except.ok outOfDomainResponse)).1.issues.map
          (fun i => i.severity) = ["ULTRA"]) ∧
    "ULTRA" ∉ ["low", "medium", "high"] := by
  constructor
  · rfl
  · decide

/-- C5 (amended): issues received from the analysis producer are not
validated against the closed enum domains at ingestion; `analyzeCode`
stores every issue of the parsed response as-is — the stored snapshot
carries exactly the producer's issues with `issueCode`, `severity` and
`complexity` copied through unchanged, so out-of-domain enum values are
passed through rather than excluded. -/
theorem analyzeCode_no_enum_validation (db : AnalysisDB) (vid src : String)
    (generate : String → Except String String)
    (parseJSON : String → Except String AIAnalysisResponse) :
    (analyzeCode db vid src generate parseJSON).1.issues =
      (callGeminiForAnalysis src generate parseJSON).issues.map storeIssue ∧
    (analyzeCode db vid src generate parseJSON).1.issues.map
        (fun i => (i.issueCode, i.severity, i.complexity)) =
      (callGeminiForAnalysis src generate parseJSON).issues.map
        (fun i => (i.issueCode, i.severity, i.complexity)) := by
  refine ⟨rfl, ?_⟩
  simp [analyzeCode, storeIssue, List.map_map, Function.comp]

/-- C6: a second analyze request for a version that already has an
analysis is rejected with a 400 error response and leaves the database
untouched: no new analysis record is created and the existing one is
returned unmodified. -/
theorem analyzeVersion_rejects_existing (db : AnalysisDB)
    (ownedVersionIds : List String) (versionId : String)
    (sourceCode : Option String) (a : AnalysisResultRec)
    (generate : String → Except String String)
    (parseJSON : String → Except String AIAnalysisResponse)
    (hown : versionId ∈ ownedVersionIds)
    (hex : getByCodeVersionId db versionId = some a) :
    analyzeVersion db ownedVersionIds versionId sourceCode generate parseJSON =
      ({ status := 400, success := false,
         error := some "Analysis already exists for this version",
         data := some a }, db) := by
  unfold analyzeVersion
  rw [hex]
  simp [hown]

theorem analyzeVersion_rejects_existing_witness :
    analyzeVersion ⟨[⟨"v1", "done", []⟩]⟩ ["v1"] "v1" (some "let x = 1")
        (fun _ => Except.error "no model") (fun _ => Except.error "no parse") =
      ({ status := 400, success := false,
         error := some "Analysis already exists for this version",
         data := some ⟨"v1", "done", []⟩ }, ⟨[⟨"v1", "done", []⟩]⟩) :=
  analyzeVersion_rejects_existing ⟨[⟨"v1", "done", []⟩]⟩ ["v1"] "v1"
    (some "let x = 1") ⟨"v1", "done", []⟩
    (fun _ => Except.error "no model") (fun _ => Except.error "no parse")
    (by decide) (by rfl)

/-- C7: `handleCompare` supplies `fromVersionId` as the id of the selected
version with the strictly earlier `uploadedAt` timestamp and
`toVersionId` as the id of the one with the later timestamp, whichever
order the two versions were selected in. -/
theorem handleCompare_orders_by_upload (versionList : List VersionItem)
    (s1 s2 : String) (v1 v2 : VersionItem)
    (h1 : versionList.find? (fun v => v.id == s1) = some v1)
    (h2 : versionList.find? (fun v => v.id == s2) = some v2)
    (hne : v1.uploadedAt ≠ v2.uploadedAt) :
    (v1.uploadedAt < v2.uploadedAt ∧
      handleCompare versionList [s1, s2] = some (v1.id, v2.id)) ∨
    (v2.uploadedAt < v1.uploadedAt ∧
      handleCompare versionList [s1, s2] = some (v2.id, v1.id)) := by
  rcases Nat.lt_or_ge v1.uploadedAt v2.uploadedAt with hlt | hge
  · exact Or.inl ⟨hlt, by simp [handleCompare, h1, h2, hlt]⟩
  · have hgt : v2.uploadedAt < v1.uploadedAt := lt_of_le_of_ne hge (Ne.symm hne)
    refine Or.inr ⟨hgt, ?_⟩
    have hnlt : ¬ v1.uploadedAt < v2.uploadedAt := Nat.not_lt.mpr (Nat.le_of_lt hgt)
    simp [handleCompare, h1, h2, hnlt]

theorem handleCompare_orders_by_upload_witness :
    (let vOld : VersionItem := ⟨"idA", "v-old", 100⟩
     let vNew : VersionItem := ⟨"idB", "v-new", 200⟩
     (vOld.uploadedAt < vNew.uploadedAt ∧
        handleCompare [vOld, vNew] ["idA", "idB"] = some (vOld.id, vNew.id)) ∨
     (vNew.uploadedAt < vOld.uploadedAt ∧
        handleCompare [vOld, vNew] ["idA", "idB"] = some (vNew.id, vOld.id))) :=
  handleCompare_orders_by_upload [⟨"idA", "v-old", 100⟩, ⟨"idB", "v-new", 200⟩]
    "idA" "idB" ⟨"idA", "v-old", 100⟩ ⟨"idB", "v-new", 200⟩
    (by rfl) (by rfl) (by decide)

/-- C8: when the generative call fails or its response cannot be parsed,
`analyzeCode` does not propagate the error: it still creates and persists
a completed analysis record whose issue list is empty and whose summary is
the fixed failure text. -/
theorem analyzeCode_failure_yields_empty_snapshot (db : AnalysisDB)
    (vid src : String)
    (generate : String → Except String String)
    (parseJSON : String → Except String AIAnalysisResponse)
    (h : (∃ e, generate (analysisPrompt src) = Except.error e) ∨
         (∃ t, generate (analysisPrompt src) = Except.ok t ∧
            ∃ e, parseJSON (cleanResponseText t) = Except.error e)) :
    (analyzeCode db vid src generate parseJSON).1 =
      { codeVersionId := vid
        summary := "Analysis failed - unable to parse code at this time."
        issues := [] } ∧
    (analyzeCode db vid src generate parseJSON).2.analyses =
      db.analyses ++ [(analyzeCode db vid src generate parseJSON).1] := by
  rcases h with ⟨e, hg⟩ | ⟨t, hg, e, hp⟩
  · simp [analyzeCode, callGeminiForAnalysis, fallbackAnalysisResponse, hg]
  · simp [analyzeCode, callGeminiForAnalysis, fallbackAnalysisResponse, hg, hp]

theorem analyzeCode_failure_yields_empty_snapshot_witness :
    (analyzeCode ⟨[]⟩ "v2" "bad code" (fun _ => Except.error "model down")
        (fun _ => Except.error "unreachable")).1 =
      { codeVersionId := "v2"
        summary := "Analysis failed - unable to parse code at this time."
        issues := [] } ∧
    (analyzeCode ⟨[]⟩ "v2" "bad code" (fun _ => Except.error "model down")
        (fun _ => Except.error "unreachable")).2.analyses =
      [] ++ [(analyzeCode ⟨[]⟩ "v2" "bad code" (fun _ => Except.error "model down")
          (fun _ => Except.error "unreachable")).1] :=
  analyzeCode_failure_yields_empty_snapshot ⟨[]⟩ "v2" "bad code"
    (fun _ => Except.error "model down") (fun _ => Except.error "unreachable")
    (Or.inl ⟨"model down", rfl⟩)

/-- C10: `analyzeCode` never persists the submitted source code. The
stored record is a function of the producer's structured response alone:
two calls whose producer responses coincide store identical records
whatever source code was submitted, and the record holds exactly the
summary and the mapped structured issue fields. -/
theorem analyzeCode_does_not_persist_source (db : AnalysisDB) (vid s1 s2 : String)
    (g1 g2 : String → Except String String)
    (p1 p2 : String → Except String AIAnalysisResponse)
    (h : callGeminiForAnalysis s1 g1 p1 = callGeminiForAnalysis s2 g2 p2) :
    analyzeCode db vid s1 g1 p1 = analyzeCode db vid s2 g2 p2 ∧
    (analyzeCode db vid s1 g1 p1).1.summary =
      (callGeminiForAnalysis s1 g1 p1).summary ∧
    (analyzeCode db vid s1 g1 p1).1.issues =
      (callGeminiForAnalysis s1 g1 p1).issues.map storeIssue := by
  refine ⟨?_, rfl, rfl⟩
  unfold analyzeCode
  rw [h]

theorem analyzeCode_does_not_persist_source_witness :
    analyzeCode ⟨[]⟩ "v3" "codeA" (fun _ => Except.error "offline")
        (fun _ => Except.error "offline") =
      analyzeCode ⟨[]⟩ "v3" "codeB" (fun _ => Except.error "offline")
        (fun _ => Except.error "offline") :=
  (analyzeCode_does_not_persist_source ⟨[]⟩ "v3" "codeA" "codeB"
    (fun _ => Except.error "offline") (fun _ => Except.error "offline")
    (fun _ => Except.error "offline") (fun _ => Except.error "offline") rfl).1

end CodeReview
